import Mathlib

/-!
Verification of the simviator guidance core: a shallow embedding of
`aviation_pronunciation.py` and `flight_guidance_character.py`, together with
theorems settling the specification's claims about them.

Conventions of the embedding:
* Python ints are `ℤ` (or `ℕ` where the source guarantees non-negativity),
  Python floats that only enter comparisons are `ℚ`, timestamps are `ℚ`
  seconds.
* A Python dict lookup that can raise `KeyError`, and any other raising path,
  is modelled with `Option`: `none` is an uncaught exception.
* Every call to `random.random()` or `random.choice` is an explicit
  parameter: a `ℚ` draw in `[0,1)` or a `ℕ` index (`random.choice(l)` is
  `l.getD (i % l.length) _` for a nonempty `l`, which ranges over exactly the
  elements of `l`).
-/

namespace Simviator

/-- The `AVIATION_NUMBERS` table keyed by a decimal digit; `none` models a
`KeyError` for a key outside the table. -/
def digitWord : ℕ → Option String
  | 0 => some "Zero"
  | 1 => some "One"
  | 2 => some "Two"
  | 3 => some "Three"
  | 4 => some "Four"
  | 5 => some "Five"
  | 6 => some "Six"
  | 7 => some "Seven"
  | 8 => some "Eight"
  | 9 => some "Niner"
  | _ => none

/-- Decimal digits of `n`, least significant first, with explicit fuel (the
number itself, which bounds the digit count, so the fuel never runs out). -/
def digitsGo : ℕ → ℕ → List ℕ
  | _, 0 => []
  | 0, _ + 1 => []
  | f + 1, n + 1 => (n + 1) % 10 :: digitsGo f ((n + 1) / 10)

/-- Decimal digits of `str(n)` for a nonnegative int, most significant first. -/
def natDigits (n : ℕ) : List ℕ :=
  if n = 0 then [0] else (digitsGo n n).reverse

/-- Python `' '.join(parts)`. -/
def joinSp : List String → String
  | [] => ""
  | [w] => w
  | w :: ws => w ++ " " ++ joinSp ws

/-- The list comprehension `[AVIATION_NUMBERS[d] for d in digits]`: it raises
(`none`) at the first digit outside the table. -/
def spellDigits : List ℕ → Option (List String)
  | [] => some []
  | d :: ds =>
    (digitWord d).bind fun w => (spellDigits ds).bind fun ws => some (w :: ws)

/-- Pronounce each decimal digit of `str(n)` through the digit table and join
with spaces: `' '.join(AVIATION_NUMBERS[d] for d in str(n))`. -/
def spellNat (n : ℕ) : Option String :=
  (spellDigits (natDigits n)).map joinSp

/-- A whole-string lookup `AVIATION_NUMBERS[str(z)]` at an integer key: it
succeeds exactly for the ten single-digit keys `"0"`..`"9"`; any other key
(all negative numbers included, whose `str` starts with `'-'`) raises
`KeyError`, modelled as `none`. -/
def intKeyWord (z : ℤ) : Option String :=
  if 0 ≤ z ∧ z < 10 then digitWord z.toNat else none

/-- Embedding of `AviationPronunciationEngine._pronounce_flight_level_number`. -/
def pronounceFlightLevelNumber (fl : ℕ) : Option String :=
  if fl < 10 then (digitWord fl).map (fun w => "Zero " ++ w)
  else if fl < 100 then
    let tens := fl / 10
    let ones := fl % 10
    if ones = 0 then (digitWord tens).map (fun w => w ++ " Zero")
    else (digitWord tens).bind fun a => (digitWord ones).bind fun b => some (a ++ " " ++ b)
  else spellNat fl

/-- Embedding of `AviationPronunciationEngine._pronounce_altitude_feet`.
Branch guards mirror the source; the `altitude < 10` fallthrough does the
whole-string dict lookup `AVIATION_NUMBERS[str(altitude)]`, which is a
`KeyError` (`none`) for every negative altitude. -/
def pronounceAltitudeFeet (a : ℤ) : Option String :=
  if a = 0 then some "Zero feet"
  else if 1000 ≤ a then
    let n := a.toNat
    let thousands := n / 1000
    let hundreds := n % 1000 / 100
    let remainder := n % 100
    (if thousands = 1 then some "One Thousand"
     else (spellNat thousands).map (fun w => w ++ " Thousand")).bind fun p1 =>
    (if 0 < hundreds then (digitWord hundreds).map (fun w => [p1, w ++ " Hundred"])
     else some [p1]).bind fun parts2 =>
    (if 0 < remainder then
       (if remainder < 10 then digitWord remainder else spellNat remainder).map
         (fun w => parts2 ++ [w])
     else some parts2).bind fun parts3 =>
    some (joinSp parts3 ++ " feet")
  else if 100 ≤ a then
    let n := a.toNat
    let hundreds := n / 100
    let remainder := n % 100
    ((digitWord hundreds).map (fun w => w ++ " Hundred")).bind fun p1 =>
    (if 0 < remainder then
       (if remainder < 10 then digitWord remainder else spellNat remainder).map
         (fun w => [p1, w])
     else some [p1]).bind fun parts2 =>
    some (joinSp parts2 ++ " feet")
  else if a < 10 then (intKeyWord a).map (fun w => w ++ " feet")
  else (spellNat a.toNat).map (fun w => w ++ " feet")

/-- Embedding of `AviationPronunciationEngine.pronounce_altitude` on the
integer path (`%` is Python `%`, which agrees with `Int.emod` for the
positive modulus 100). -/
def pronounceAltitude (a : ℤ) : Option String :=
  if 18000 ≤ a ∧ a % 100 = 0 then
    let fl := a.toNat / 100
    if fl < 100 then (pronounceFlightLevelNumber fl).map (fun w => "Flight Level " ++ w)
    else (spellNat fl).map (fun w => "Flight Level " ++ w)
  else pronounceAltitudeFeet a

/-- Embedding of `AviationPronunciationEngine.pronounce_heading` on the
integer path: normalize `heading % 360`, zero-pad to three digits
(`f"{heading:03d}"`), and pronounce each digit. -/
def pronounceHeading (h : ℤ) : Option String :=
  let n := (h % 360).toNat
  (spellDigits [n / 100, n / 10 % 10, n % 10]).map joinSp

/-! ## The guidance character system (`flight_guidance_character.py`) -/

/-- The `GuidancePersonality` enum. -/
inductive GuidancePersonality where
  | boredController
  | harriedController
  | veteranPilot
  | nervousStudent
  | enthusiastSpotter
  | safetyOfficer
  deriving DecidableEq, Repr

/-- The `GuidanceCharacter` dataclass: immutable definition plus the mutable
per-character state (`current_mood`, `tiredness_level`, `last_spoke`,
`spoke_count_session`).  `lastSpoke` is a timestamp in seconds. -/
structure GuidanceCharacter where
  name : String
  personality : GuidancePersonality
  background : String
  speechPatterns : List String
  expertiseAreas : List String
  responseLikelihood : ℚ
  professionalLevel : ℕ
  currentMood : String := "neutral"
  tirednessLevel : ℚ := 0
  lastSpoke : Option ℚ := none
  spokeCountSession : ℕ := 0
  deriving DecidableEq, Repr

/-- One entry of `GuidanceContext.conversation_flow` (the dict appended in
`process_flight_situation`). -/
structure FlowEntry where
  timestamp : ℚ
  character : String
  message : String
  situation : String
  deriving DecidableEq, Repr

/-- The `GuidanceContext` dataclass. -/
structure GuidanceContext where
  aircraftCallsign : String := "unknown"
  flightPhase : String := "unknown"
  complexityLevel : ℤ := 1
  trafficDensity : ℤ := 0
  weatherConditions : String := "clear"
  emergencySituation : Bool := false
  activeCharacters : List String := []
  conversationFlow : List FlowEntry := []
  dominantCharacter : Option String := none
  deriving DecidableEq, Repr

/-- A flight snapshot: the `flight_data` dict with the defaults
`flight_data.get(...)` supplies for absent keys. -/
structure FlightData where
  callsign : String := "unknown aircraft"
  phase : String := "unknown"
  altitude : ℤ := 0
  speed : ℤ := 0
  heading : ℤ := 0
  trafficCount : ℤ := 0
  weather : String := "clear"
  weatherSeverity : ℤ := 0
  emergency : Bool := false
  aircraftType : String := ""
  deriving DecidableEq, Repr

/-- The `situation_analysis` dict built by `_analyze_situation`. -/
structure SituationAnalysis where
  situationType : String := "routine"
  urgencyLevel : ℕ := 1
  requiresTechnicalGuidance : Bool := false
  trafficConcerns : List String := []
  weatherConcerns : List String := []
  educationalOpportunities : List String := []
  characterPreferences : List String := []
  deriving DecidableEq, Repr

/-- The mutable state of a `FlightGuidanceCharacterSystem` instance: the
character dict (an association list in the dict's insertion order), the
guidance context and the global rate-limit timestamp. -/
structure SysState where
  characters : List (String × GuidanceCharacter)
  context : GuidanceContext
  lastGuidanceTime : ℚ
  deriving DecidableEq, Repr

/-- One outcome of every random draw a processing cycle can make.  Per-site
draws are separate fields; per-character draws are functions of the
character's key. -/
structure RandomOutcome where
  gateDraw : ℚ
  likelihood : String → ℚ
  proChoice : ℕ
  primChoice : ℕ
  secondDraw : ℚ
  secondChoice : ℕ
  templateChoice : String → ℕ
  sighDraw : String → ℚ
  sighChoice : String → ℕ
  emergencyTemplateChoice : ℕ

/-- `self.guidance_cooldown_seconds` (3.0 in `__init__`). -/
def guidanceCooldownSeconds : ℚ := 3

/-- The cast built by `_initialize_characters`, in dict insertion order. -/
def initialCharacters : List (String × GuidanceCharacter) :=
  [("dublin_control",
    { name := "Dublin Control"
      personality := .boredController
      background := "20-year veteran controller at Dublin, seen everything twice"
      speechPatterns :=
        ["Right then, {callsign}...",
         "Copy that, {callsign}, been there before...",
         "Ah yes, {callsign}, another day another dollar...",
         "Sure thing, {callsign}, nothing new under the sun...",
         "Roger, {callsign}, same old same old...",
         "*sigh* Alright {callsign}, let\x27s sort this out...",
         "Been doing this since before you were flying, {callsign}..."]
      expertiseAreas := ["traffic_management", "conflict_resolution", "airspace_procedures"]
      responseLikelihood := 4/5
      professionalLevel := 9 }),
   ("approach_control",
    { name := "Approach Control"
      personality := .harriedController
      background := "Busy approach controller, multiple aircraft, efficient communication"
      speechPatterns :=
        ["Quick one, {callsign} -",
         "{callsign}, expedite -",
         "Rapid fire, {callsign} -",
         "Keep it moving, {callsign} -",
         "No time to chat, {callsign} -",
         "{callsign}, immediately -",
         "Speed it up, {callsign} -"]
      expertiseAreas := ["approach_procedures", "sequencing", "emergency_handling"]
      responseLikelihood := 3/5
      professionalLevel := 8 }),
   ("captain_murphy",
    { name := "Captain Murphy"
      personality := .veteranPilot
      background := "Retired Aer Lingus captain, 35 years commercial aviation"
      speechPatterns :=
        ["In my day, we\x27d handle that by...",
         "Reminds me of a flight back in \x2787...",
         "Pro tip - watch out for...",
         "I\x27ve seen this before, best to...",
         "Old pilot trick - when you see...",
         "After 10,000 hours, you learn that...",
         "Back when I flew the 737..."]
      expertiseAreas := ["commercial_procedures", "weather_flying", "emergency_procedures"]
      responseLikelihood := 2/5
      professionalLevel := 10 }),
   ("sarah_spotter",
    { name := "Sarah (Aviation Enthusiast)"
      personality := .enthusiastSpotter
      background := "Aircraft spotter and aviation YouTuber"
      speechPatterns :=
        ["Oh wow, look at that!",
         "Did you know that aircraft type...",
         "That\x27s a rare sight -",
         "Perfect example of...",
         "I love seeing...",
         "Fun fact about that...",
         "My subscribers would love this..."]
      expertiseAreas := ["aircraft_recognition", "aviation_trivia", "spotting_locations"]
      responseLikelihood := 3/10
      professionalLevel := 6 })]

/-- The state right after `__init__`, with the construction instant taken as
time 0 (`last_guidance_time = datetime.now()`). -/
def initialState : SysState :=
  { characters := initialCharacters
    context := {}
    lastGuidanceTime := 0 }

/-- Python `self.characters[n]` / `n in self.characters` on the association
list: the first pair whose key is `n`. -/
def findChar (chars : List (String × GuidanceCharacter)) (n : String) :
    Option GuidanceCharacter :=
  (chars.find? (fun p => decide (p.1 = n))).map (fun p => p.2)

/-- `self.characters[n].professional_level`; the default 0 is never used on the
paths below, where `n` is always a registered key. -/
def profLevelOf (chars : List (String × GuidanceCharacter)) (n : String) : ℕ :=
  ((findChar chars n).map (fun c => c.professionalLevel)).getD 0

/-- Embedding of `_update_guidance_context`: copy the snapshot fields into the
context and recompute the complexity level.  `//` is Python floor division,
`Int.fdiv`. -/
def updateGuidanceContext (ctx : GuidanceContext) (fd : FlightData) : GuidanceContext :=
  let c1 : ℤ := 1 + min (Int.fdiv fd.trafficCount 2) 3
  let c2 : ℤ := if fd.emergency then c1 + 4 else c1
  let c3 : ℤ := if 5 < fd.weatherSeverity then c2 + 2 else c2
  { ctx with
    aircraftCallsign := fd.callsign
    flightPhase := fd.phase
    trafficDensity := fd.trafficCount
    weatherConditions := fd.weather
    emergencySituation := fd.emergency
    complexityLevel := min c3 10 }

/-- Embedding of `_analyze_situation`: each rule appends its concerns,
opportunities and character preferences. -/
def analyzeSituation (ctx : GuidanceContext) (fd : FlightData) : SituationAnalysis :=
  let sa0 : SituationAnalysis := {}
  let sa1 :=
    if 3 < ctx.trafficDensity then
      { sa0 with
        trafficConcerns := ["Multiple aircraft in vicinity"]
        situationType := "traffic_advisory"
        urgencyLevel := max 3 sa0.urgencyLevel
        requiresTechnicalGuidance := true
        characterPreferences :=
          sa0.characterPreferences ++ ["dublin_control", "approach_control"] }
    else sa0
  let sa2 :=
    if fd.phase = "takeoff" ∨ fd.phase = "landing" then
      { sa1 with
        educationalOpportunities :=
          sa1.educationalOpportunities ++ ["critical_phase_procedures"]
        characterPreferences :=
          sa1.characterPreferences ++ ["captain_murphy", "approach_control"] }
    else if fd.phase = "cruise" then
      { sa1 with
        educationalOpportunities :=
          sa1.educationalOpportunities ++ ["navigation_efficiency"]
        characterPreferences :=
          sa1.characterPreferences ++ ["captain_murphy", "sarah_spotter"] }
    else sa1
  let sa3 :=
    if 30000 < fd.altitude then
      { sa2 with
        educationalOpportunities :=
          sa2.educationalOpportunities ++ ["high_altitude_operations"] }
    else sa2
  if fd.aircraftType ≠ "" ∧ fd.aircraftType ∉ ["B737", "A320", "B777"] then
    { sa3 with
      educationalOpportunities :=
        sa3.educationalOpportunities ++ ["aircraft_recognition"]
      characterPreferences := sa3.characterPreferences ++ ["sarah_spotter"] }
  else sa3

/-- Embedding of `_should_provide_guidance` at instant `now`: the basic
cooldown check, the complexity-scaled cooldown check, the emergency early
`True`, and the final probability draw `random.random() < final_probability`
with draw `r`. -/
def shouldProvideGuidance (now lastGuidance : ℚ) (ctx : GuidanceContext) (r : ℚ) : Bool :=
  let elapsed := now - lastGuidance
  if elapsed < guidanceCooldownSeconds then false
  else
    let complexityFactor : ℤ := max 1 (11 - ctx.complexityLevel)
    let effectiveCooldown : ℚ := guidanceCooldownSeconds * (complexityFactor : ℚ)
    if elapsed < effectiveCooldown then false
    else if ctx.emergencySituation then true
    else
      let finalProbability : ℚ := min (3/10 + (ctx.complexityLevel : ℚ) * (5/100)) (8/10)
      decide (r < finalProbability)

/-- The per-character rest check of `_select_responding_characters`: a
character with a `last_spoke` within 5 minutes of `now` is skipped. -/
def restedAt (now : ℚ) (c : GuidanceCharacter) : Bool :=
  match c.lastSpoke with
  | some u => !decide ((now - u) / 60 < 5)
  | none => true

/-- The `available_characters` list of `_select_responding_characters`:
registered characters, in dict order, that are rested and pass their
`response_likelihood` draw (`random.random() > likelihood` skips). -/
def availableCharacters (chars : List (String × GuidanceCharacter)) (now : ℚ)
    (ro : RandomOutcome) : List String :=
  (chars.filter (fun p =>
    restedAt now p.2 && !decide (p.2.responseLikelihood < ro.likelihood p.1))).map
      (fun p => p.1)

/-- The `preferred_characters` list: the situation's preferences that are
available, falling back to the whole available list when that filter is
empty. -/
def preferredCharacters (chars : List (String × GuidanceCharacter)) (now : ℚ)
    (ro : RandomOutcome) (sa : SituationAnalysis) : List String :=
  let avail := availableCharacters chars now ro
  let pref0 := sa.characterPreferences.filter (fun n => decide (n ∈ avail))
  if pref0 = [] then avail else pref0

/-- Embedding of `_select_responding_characters`.  `none` models the uncaught
`IndexError` of `random.choice([...])` on an empty list (reachable when every
remaining preferred entry equals the primary speaker). -/
def selectRespondingCharacters (chars : List (String × GuidanceCharacter)) (now : ℚ)
    (ro : RandomOutcome) (sa : SituationAnalysis) : Option (List String) :=
  let avail := availableCharacters chars now ro
  if avail = [] then some []
  else
    let preferred := preferredCharacters chars now ro sa
    let normalSelection : Option (List String) :=
      let primary := preferred.getD (ro.primChoice % preferred.length) ""
      if sa.situationType = "routine" ∧ 1 < preferred.length ∧ ro.secondDraw < 1/5 then
        let remaining := preferred.filter (fun c => decide (c ≠ primary))
        if remaining = [] then none
        else some [primary, remaining.getD (ro.secondChoice % remaining.length) ""]
      else some [primary]
    if 7 ≤ sa.urgencyLevel then
      let professionalChars := preferred.filter (fun c => decide (8 ≤ profLevelOf chars c))
      if professionalChars = [] then normalSelection
      else some [professionalChars.getD (ro.proChoice % professionalChars.length) ""]
    else normalSelection

/-- The per-personality template table of `_generate_template_guidance`
(`templates.get(personality, templates[BORED_CONTROLLER])`). -/
def personalityTemplates (p : GuidancePersonality) (cs : String) : List String :=
  match p with
  | .harriedController =>
      [cs ++ ", traffic advisory, maintain separation.",
       "Quick one " ++ cs ++ " - traffic twelve o\x27clock, monitor.",
       cs ++ ", expedite climb if able.",
       "Keep it moving " ++ cs ++ ", busy airspace today."]
  | .veteranPilot =>
      ["In my experience " ++ cs ++ ", watch that traffic pattern.",
       cs ++ ", old pilot trick - keep your head on a swivel.",
       "Reminds me of a flight I had " ++ cs ++ ", stay alert.",
       "Pro tip " ++ cs ++ " - this altitude works well for this route."]
  | .enthusiastSpotter =>
      ["Oh wow " ++ cs ++ ", great view of that traffic!",
       cs ++ ", perfect example of traffic management!",
       "Look at that " ++ cs ++ ", textbook flying!",
       "Fun fact " ++ cs ++ " - this is a busy corridor!"]
  | _ =>
      ["Right then " ++ cs ++ ", traffic observed, suggest maintaining current altitude.",
       cs ++ ", been watching that traffic, no immediate concerns.",
       "Copy " ++ cs ++ ", standard procedures apply here.",
       "*sigh* " ++ cs ++ ", nothing I haven\x27t seen before."]

/-- Embedding of `_generate_template_guidance` for character `ch` under
context callsign `cs`: pick a template, then apply the personality-specific
post-processing (bored: 30% chance of a weary prefix; harried: strip
`"please"`, `" really"`, `" very"`). -/
def generateTemplateGuidance (ch : GuidanceCharacter) (cs : String)
    (ro : RandomOutcome) : String :=
  let ts := personalityTemplates ch.personality cs
  let guidance := ts.getD (ro.templateChoice ch.name % ts.length) ""
  match ch.personality with
  | .boredController =>
      if ro.sighDraw ch.name < 3/10 then
        let sighVariants := ["*sigh*", "Right then,", "Ah,", "Well,"]
        sighVariants.getD (ro.sighChoice ch.name % sighVariants.length) "" ++ " " ++ guidance
      else guidance
  | .harriedController =>
      ((guidance.replace "please" "").replace " really" "").replace " very" ""
  | _ => guidance

/-- The `emergency_templates` table of `_generate_emergency_guidance`, keyed by
character key with the `dublin_control` entry as the `.get` default. -/
def emergencyTemplates (n cs : String) : List String :=
  if n = "approach_control" then
    [cs ++ ", emergency acknowledged. Immediate vectors available.",
     cs ++ ", priority approach cleared. Emergency equipment standing by.",
     cs ++ ", understand emergency. Runway available, cleared immediate."]
  else if n = "captain_murphy" then
    [cs ++ ", stay calm. Run your emergency checklist first.",
     cs ++ ", been through this before. Follow procedures, you\x27ll be fine.",
     cs ++ ", emergency training kicks in now. Trust your procedures."]
  else
    [cs ++ ", understand emergency. State intentions, assistance available.",
     cs ++ ", roger emergency. Clearing airspace, priority handling.",
     cs ++ ", emergency services alerted. Proceed as required."]

/-- Embedding of `_generate_emergency_guidance`: a uniform choice among the
character's emergency templates. -/
def generateEmergencyGuidance (n cs : String) (i : ℕ) : String :=
  let ts := emergencyTemplates n cs
  ts.getD (i % ts.length) ""

/-- One turn of the emission loop of `process_flight_situation` for character
key `n`: generate guidance and, when it is truthy, dispatch it
(`_output_guidance` sets `last_guidance_time`), update the character's
`last_spoke`/`spoke_count_session` and append the conversation-flow entry. -/
def emitOne (s : SysState) (sa : SituationAnalysis) (t : ℚ) (ro : RandomOutcome)
    (n : String) : SysState × Option (String × String) :=
  match findChar s.characters n with
  | none => (s, none)
  | some ch =>
    let g := generateTemplateGuidance ch s.context.aircraftCallsign ro
    if g = "" then (s, none)
    else
      let s1 := { s with lastGuidanceTime := t }
      let chars2 := s1.characters.map (fun p =>
        if p.1 = n then
          (p.1, { p.2 with lastSpoke := some t, spokeCountSession := p.2.spokeCountSession + 1 })
        else p)
      let entry : FlowEntry :=
        { timestamp := t, character := n, message := g, situation := sa.situationType }
      ({ s1 with
          characters := chars2
          context := { s1.context with
            conversationFlow := s1.context.conversationFlow ++ [entry] } },
       some (n, g))

/-- The emission loop of `process_flight_situation` over the selected
character keys, collecting the emissions delivered to subscribers. -/
def emitLoop (sa : SituationAnalysis) (t : ℚ) (ro : RandomOutcome) :
    SysState → List String → SysState × List (String × String)
  | s, [] => (s, [])
  | s, n :: rest =>
    let r1 := emitOne s sa t ro n
    let r2 := emitLoop sa t ro r1.1 rest
    (r2.1, (match r1.2 with | some e => [e] | none => []) ++ r2.2)

/-- Embedding of one call to `process_flight_situation` at instant `t`:
context update, gate check, situation analysis, character selection and the
emission loop.  The second component lists the emissions of the call; a
`none` from the selector is the uncaught `IndexError` (no emission, the
context update keeps its effect). -/
def processFlightSituation (s : SysState) (fd : FlightData) (t : ℚ)
    (ro : RandomOutcome) : SysState × List (String × String) :=
  let ctx := updateGuidanceContext s.context fd
  let s1 := { s with context := ctx }
  if shouldProvideGuidance t s1.lastGuidanceTime ctx ro.gateDraw then
    let sa := analyzeSituation ctx fd
    match selectRespondingCharacters s1.characters t ro sa with
    | none => (s1, [])
    | some sel => emitLoop sa t ro s1 sel
  else (s1, [])

/-- Embedding of `handle_emergency_situation`: force the emergency context,
pick the first registered character with `professional_level >= 8` and emit
its emergency guidance unconditionally through `_output_guidance` (which only
updates `last_guidance_time`).  The `emergency_data` argument is threaded but
unused, as in the source. -/
def handleEmergencySituation (s : SysState) (_emergencyData : List (String × String))
    (t : ℚ) (ro : RandomOutcome) : SysState × List (String × String) :=
  let ctx := { s.context with emergencySituation := true, complexityLevel := 10 }
  let s1 := { s with context := ctx }
  let professionalChars := s1.characters.filter (fun p => decide (8 ≤ p.2.professionalLevel))
  match professionalChars with
  | [] => (s1, [])
  | p :: _ =>
    let g := generateEmergencyGuidance p.1 ctx.aircraftCallsign ro.emergencyTemplateChoice
    if g = "" then (s1, [])
    else ({ s1 with lastGuidanceTime := t }, [(p.1, g)])

/-- Embedding of `force_character_guidance`: `none` is the not-found return;
otherwise guidance is generated under the mock situation and dispatched when
truthy (`_output_guidance` only updates `last_guidance_time`). -/
def forceCharacterGuidance (s : SysState) (n : String) (situationOverride : Option String)
    (t : ℚ) (ro : RandomOutcome) : SysState × Option String :=
  match findChar s.characters n with
  | none => (s, none)
  | some ch =>
    let _mockSituation : SituationAnalysis :=
      { situationType := situationOverride.getD "routine"
        urgencyLevel := 3
        educationalOpportunities := ["general_guidance"]
        characterPreferences := [n] }
    let g := generateTemplateGuidance ch s.context.aircraftCallsign ro
    if g = "" then (s, some g)
    else ({ s with lastGuidanceTime := t }, some g)

/-! ## Traces of the orchestrator -/

/-- One situation-processing cycle, at any instant, under any snapshot and any
outcome of the random draws. -/
inductive Step : SysState → SysState → Prop
  | cycle (s : SysState) (fd : FlightData) (t : ℚ) (ro : RandomOutcome) :
      Step s (processFlightSituation s fd t ro).1

/-- States reachable by a sequence of situation-processing cycles. -/
def ReachableFrom (s s' : SysState) : Prop :=
  Relation.ReflTransGen Step s s'

/-- Any two conversation-flow entries attributed to the same character are at
least 300 seconds (5 minutes) apart, the later at least 300 after the
earlier. -/
def SpacedOk (l : List FlowEntry) : Prop :=
  List.Pairwise
    (fun e1 e2 => e1.character = e2.character → e1.timestamp + 300 ≤ e2.timestamp) l

/-- Every registered character's `last_spoke` is at or after each of that
character's conversation-flow entries. -/
def LastSpokeOk (s : SysState) : Prop :=
  ∀ n c, (n, c) ∈ s.characters →
    ∀ e ∈ s.context.conversationFlow, e.character = n →
      ∃ u, c.lastSpoke = some u ∧ e.timestamp ≤ u

/-- The character dict has distinct keys. -/
def CharKeysNodup (s : SysState) : Prop :=
  (s.characters.map Prod.fst).Nodup

/-- The inductive invariant of the cycle trace. -/
def Inv (s : SysState) : Prop :=
  SpacedOk s.context.conversationFlow ∧ LastSpokeOk s ∧ CharKeysNodup s

/-! ## Concrete inputs used by the counterexamples and witnesses -/

/-- A fixed draw outcome: every `random.random()` returns 0 except the
second-speaker draw, which returns 1; every `random.choice` takes the first
element. -/
def roDemo : RandomOutcome :=
  { gateDraw := 0
    likelihood := fun _ => 0
    proChoice := 0
    primChoice := 0
    secondDraw := 1
    secondChoice := 0
    templateChoice := fun _ => 0
    sighDraw := fun _ => 1
    sighChoice := fun _ => 0
    emergencyTemplateChoice := 0 }

/-- An emergency-flagged snapshot. -/
def fdEmergency : FlightData :=
  { emergency := true }

/-- A routine cruise snapshot with an uncommon aircraft type: its analysis
prefers `captain_murphy` once and `sarah_spotter` twice. -/
def fdC5 : FlightData :=
  { phase := "cruise", aircraftType := "C172" }

/-- A draw outcome under which `captain_murphy` fails its response-likelihood
draw (1/2 > 0.4) while every other character passes, the primary choice takes
the first element and the 20% second-speaker draw succeeds. -/
def roC5 : RandomOutcome :=
  { roDemo with
    likelihood := fun n => if n = "captain_murphy" then 1/2 else 0
    secondDraw := 0 }

/-- A routine cruise snapshot with a common aircraft type. -/
def fdDemo : FlightData :=
  { callsign := "EI-XYZ", phase := "cruise", altitude := 5000, speed := 400,
    heading := 90, aircraftType := "B737" }

/-- The concrete trace driving `fdDemo` through a cycle every 300 seconds
under the draws of `roDemo`: each cycle emits one message from
`captain_murphy`, exactly 5 minutes after its previous one. -/
def demoRun : ℕ → SysState
  | 0 => initialState
  | k + 1 => (processFlightSituation (demoRun k) fdDemo (300 * ((k : ℚ) + 1)) roDemo).1

/-- The message `captain_murphy` emits on every cycle of the demo trace
(veteran-pilot template 0 with callsign `EI-XYZ`). -/
def demoMessage : String := "In my experience EI-XYZ, watch that traffic pattern."

/-- The conversation-flow entry of the demo trace's `j`-th cycle. -/
def demoEntry (j : ℕ) : FlowEntry :=
  { timestamp := 300 * (j : ℚ), character := "captain_murphy",
    message := demoMessage, situation := "routine" }

/-- The conversation flow after `k` cycles of the demo trace. -/
def demoFlow (k : ℕ) : List FlowEntry :=
  (List.range k).map (fun j => demoEntry (j + 1))

/-- The closed form of the demo trace's state after at least one cycle:
`captain_murphy` last spoke at time `u` with `cnt` session messages, the
context carries the snapshot's fields and the accumulated flow, and the last
guidance went out at `u`. -/
def demoStateAux (u : ℚ) (cnt : ℕ) (flow : List FlowEntry) : SysState :=
  { characters := initialCharacters.map (fun p =>
      if p.1 = "captain_murphy" then
        (p.1, { p.2 with lastSpoke := some u, spokeCountSession := cnt })
      else p)
    context :=
      { aircraftCallsign := "EI-XYZ"
        flightPhase := "cruise"
        complexityLevel := 1
        trafficDensity := 0
        weatherConditions := "clear"
        emergencySituation := false
        activeCharacters := []
        conversationFlow := flow
        dominantCharacter := none }
    lastGuidanceTime := u }

/-! # Theorems -/

theorem digitsGo_lt_ten (f : ℕ) : ∀ n d, d ∈ digitsGo f n → d < 10 := by
  induction f with
  | zero => intro n d h; cases n <;> simp [digitsGo] at h
  | succ f ih =>
    intro n d h
    cases n with
    | zero => simp [digitsGo] at h
    | succ m =>
      simp only [digitsGo, List.mem_cons] at h
      rcases h with h | h
      · omega
      · exact ih _ _ h

theorem natDigits_lt_ten {n d : ℕ} (h : d ∈ natDigits n) : d < 10 := by
  unfold natDigits at h
  split at h
  · simp at h; omega
  · exact digitsGo_lt_ten _ _ _ (List.mem_reverse.1 h)

theorem natDigits_ne_nil (n : ℕ) : natDigits n ≠ [] := by
  unfold natDigits
  split
  · simp
  · rename_i hn
    intro h
    rw [List.reverse_eq_nil_iff] at h
    cases n with
    | zero => exact hn rfl
    | succ m => simp [digitsGo] at h

theorem digitWord_isSome {d : ℕ} (h : d < 10) : (digitWord d).isSome = true := by
  rcases d with _|_|_|_|_|_|_|_|_|_|d <;> first | rfl | omega

theorem spellDigits_isSome : ∀ {l : List ℕ}, (∀ d ∈ l, d < 10) →
    (spellDigits l).isSome = true := by
  intro l
  induction l with
  | nil => intro; rfl
  | cons d ds ih =>
    intro h
    obtain ⟨w, hw⟩ := Option.isSome_iff_exists.1 (digitWord_isSome (h d (by simp)))
    obtain ⟨ws, hws⟩ := Option.isSome_iff_exists.1 (ih (fun x hx => h x (by simp [hx])))
    simp [spellDigits, hw, hws]

theorem spellNat_isSome (n : ℕ) : (spellNat n).isSome = true := by
  obtain ⟨ws, hws⟩ := Option.isSome_iff_exists.1
    (spellDigits_isSome (l := natDigits n) (fun d hd => natDigits_lt_ten hd))
  simp [spellNat, hws]

theorem pronounceFlightLevelNumber_isSome (fl : ℕ) :
    (pronounceFlightLevelNumber fl).isSome = true := by
  unfold pronounceFlightLevelNumber
  split_ifs with h10 h100
  · obtain ⟨w, hw⟩ := Option.isSome_iff_exists.1 (digitWord_isSome h10)
    simp [hw]
  · obtain ⟨w, hw⟩ := Option.isSome_iff_exists.1 (digitWord_isSome (d := fl / 10) (by omega))
    obtain ⟨v, hv⟩ := Option.isSome_iff_exists.1 (digitWord_isSome (d := fl % 10) (by omega))
    dsimp only
    split_ifs with h0 <;> simp [hw, hv]
  · exact spellNat_isSome fl

theorem isSome_bind {α β : Type} {x : Option α} {f : α → Option β}
    (hx : x.isSome = true) (hf : ∀ a, (f a).isSome = true) :
    (x.bind f).isSome = true := by
  cases x with
  | none => simp at hx
  | some a => simpa using hf a

theorem pronounceAltitudeFeet_isSome {a : ℤ} (h : 0 ≤ a) :
    (pronounceAltitudeFeet a).isSome = true := by
  unfold pronounceAltitudeFeet
  split_ifs with h0 h1000 h100 h10
  · rfl
  · show (Option.bind _ _).isSome = true
    apply isSome_bind
    · split_ifs with h1
      · rfl
      · obtain ⟨w, hw⟩ := Option.isSome_iff_exists.1 (spellNat_isSome (a.toNat / 1000))
        simp [hw]
    · intro p1
      apply isSome_bind
      · split_ifs with hh
        · obtain ⟨w, hw⟩ := Option.isSome_iff_exists.1
            (digitWord_isSome (d := a.toNat % 1000 / 100) (by omega))
          simp [hw]
        · rfl
      · intro parts2
        apply isSome_bind
        · split_ifs with hr hr10
          · obtain ⟨w, hw⟩ := Option.isSome_iff_exists.1
              (digitWord_isSome (d := a.toNat % 100) hr10)
            simp [hw]
          · obtain ⟨w, hw⟩ := Option.isSome_iff_exists.1 (spellNat_isSome (a.toNat % 100))
            simp [hw]
          · rfl
        · intro parts3
          rfl
  · show (Option.bind _ _).isSome = true
    apply isSome_bind
    · obtain ⟨w, hw⟩ := Option.isSome_iff_exists.1
        (digitWord_isSome (d := a.toNat / 100) (by omega))
      simp [hw]
    · intro p1
      apply isSome_bind
      · split_ifs with hr hr10
        · obtain ⟨w, hw⟩ := Option.isSome_iff_exists.1
            (digitWord_isSome (d := a.toNat % 100) hr10)
          simp [hw]
        · obtain ⟨w, hw⟩ := Option.isSome_iff_exists.1 (spellNat_isSome (a.toNat % 100))
          simp [hw]
        · rfl
      · intro parts2
        rfl
  · obtain ⟨w, hw⟩ := Option.isSome_iff_exists.1
      (digitWord_isSome (d := a.toNat) (by omega))
    simp [intKeyWord, hw, h, h10]
  · obtain ⟨w, hw⟩ := Option.isSome_iff_exists.1 (spellNat_isSome a.toNat)
    simp [hw]

/-- CLAIM C8 counterexample: `pronounce_altitude(-50)` raises.  The feet path
reaches the `altitude < 10` branch and looks up `AVIATION_NUMBERS["-50"]`,
which is a `KeyError` — the function does not degrade gracefully on a negative
altitude, contradicting the claim that no transcription function ever
raises. -/
theorem c8_counterexample : pronounceAltitude (-50) = none := by decide

/-- A string starting with a digit word: at least two characters long and the
second character is not `'l'` (so it cannot begin with "Flight Level"). -/
theorem wordOk_append {w : String} (h2 : 2 ≤ w.data.length)
    (hl : w.data.get? 1 ≠ some 'l') (x : String) :
    2 ≤ (w ++ x).data.length ∧ (w ++ x).data.get? 1 ≠ some 'l' := by
  rw [String.data_append]
  refine ⟨le_trans h2 (by simp), ?_⟩
  rw [List.get?_append (by omega)]
  exact hl

theorem wordOk_joinSp {w : String} (h2 : 2 ≤ w.data.length)
    (hl : w.data.get? 1 ≠ some 'l') (ws : List String) :
    2 ≤ (joinSp (w :: ws)).data.length ∧ (joinSp (w :: ws)).data.get? 1 ≠ some 'l' := by
  cases ws with
  | nil => exact ⟨h2, hl⟩
  | cons x xs =>
    show 2 ≤ ((w ++ " ") ++ joinSp (x :: xs)).data.length ∧ _
    exact wordOk_append (wordOk_append h2 hl " ").1 (wordOk_append h2 hl " ").2 _

theorem digitWord_wordOk {d : ℕ} {w : String} (h : digitWord d = some w) :
    2 ≤ w.data.length ∧ w.data.get? 1 ≠ some 'l' := by
  rcases d with _|_|_|_|_|_|_|_|_|_|d <;> simp [digitWord] at h <;> subst h <;> decide

theorem spellDigits_cons {d : ℕ} {ds : List ℕ} {l : List String}
    (h : spellDigits (d :: ds) = some l) :
    ∃ w ws, digitWord d = some w ∧ spellDigits ds = some ws ∧ l = w :: ws := by
  cases hw : digitWord d with
  | none => simp [spellDigits, hw] at h
  | some w =>
    cases hws : spellDigits ds with
    | none => simp [spellDigits, hw, hws] at h
    | some ws =>
      simp [spellDigits, hw, hws] at h
      exact ⟨w, ws, rfl, rfl, h.symm⟩

theorem spellNat_wordOk {n : ℕ} {s : String} (h : spellNat n = some s) :
    2 ≤ s.data.length ∧ s.data.get? 1 ≠ some 'l' := by
  unfold spellNat at h
  obtain ⟨d, ds, hcons⟩ := List.exists_cons_of_ne_nil (natDigits_ne_nil n)
  rw [hcons] at h
  cases hsd : spellDigits (d :: ds) with
  | none => simp [hsd] at h
  | some l =>
    simp [hsd] at h
    obtain ⟨w, ws, hw, hws, hl⟩ := spellDigits_cons hsd
    obtain ⟨h2, hlw⟩ := digitWord_wordOk hw
    rw [← h, hl]
    exact wordOk_joinSp h2 hlw ws

theorem pronounceAltitudeFeet_wordOk {a : ℤ} {s : String}
    (h : pronounceAltitudeFeet a = some s) :
    2 ≤ s.data.length ∧ s.data.get? 1 ≠ some 'l' := by
  unfold pronounceAltitudeFeet at h
  split_ifs at h with h0 h1000 h100 h10
  · cases h; decide
  · obtain ⟨p1, hp1, h⟩ := Option.bind_eq_some.1 h
    obtain ⟨parts2, hp2, h⟩ := Option.bind_eq_some.1 h
    obtain ⟨parts3, hp3, h⟩ := Option.bind_eq_some.1 h
    cases h
    have hw1 : 2 ≤ p1.data.length ∧ p1.data.get? 1 ≠ some 'l' := by
      split_ifs at hp1 with ht
      · cases hp1; decide
      · obtain ⟨w, hw, hp1'⟩ := Option.map_eq_some'.1 hp1
        obtain ⟨hwa, hwb⟩ := spellNat_wordOk hw
        rw [← hp1']
        exact wordOk_append hwa hwb _
    have hsh2 : ∃ rest, parts2 = p1 :: rest := by
      split_ifs at hp2
      · obtain ⟨w, _, hp2'⟩ := Option.map_eq_some'.1 hp2
        exact ⟨_, hp2'.symm⟩
      · exact ⟨[], (Option.some.inj hp2).symm⟩
    have hsh3 : ∃ rest, parts3 = p1 :: rest := by
      obtain ⟨r2, hr2⟩ := hsh2
      subst hr2
      split_ifs at hp3
      · obtain ⟨w, _, hp3'⟩ := Option.map_eq_some'.1 hp3
        exact ⟨r2 ++ [w], by rw [← hp3']; rfl⟩
      · obtain ⟨w, _, hp3'⟩ := Option.map_eq_some'.1 hp3
        exact ⟨r2 ++ [w], by rw [← hp3']; rfl⟩
      · exact ⟨r2, (Option.some.inj hp3).symm⟩
    obtain ⟨rest, hrest⟩ := hsh3
    rw [hrest]
    exact wordOk_append (wordOk_joinSp hw1.1 hw1.2 rest).1 (wordOk_joinSp hw1.1 hw1.2 rest).2 _
  · obtain ⟨p1, hp1, h⟩ := Option.bind_eq_some.1 h
    obtain ⟨parts2, hp2, h⟩ := Option.bind_eq_some.1 h
    cases h
    obtain ⟨w, hw, hp1'⟩ := Option.map_eq_some'.1 hp1
    obtain ⟨hwa, hwb⟩ := digitWord_wordOk hw
    have hw1 : 2 ≤ p1.data.length ∧ p1.data.get? 1 ≠ some 'l' := by
      rw [← hp1']
      exact wordOk_append hwa hwb _
    have hsh2 : ∃ rest, parts2 = p1 :: rest := by
      split_ifs at hp2
      · obtain ⟨w', _, hp2'⟩ := Option.map_eq_some'.1 hp2
        exact ⟨_, hp2'.symm⟩
      · obtain ⟨w', _, hp2'⟩ := Option.map_eq_some'.1 hp2
        exact ⟨_, hp2'.symm⟩
      · exact ⟨[], (Option.some.inj hp2).symm⟩
    obtain ⟨rest, hrest⟩ := hsh2
    rw [hrest]
    exact wordOk_append (wordOk_joinSp hw1.1 hw1.2 rest).1 (wordOk_joinSp hw1.1 hw1.2 rest).2 _
  · obtain ⟨w, hw, h'⟩ := Option.map_eq_some'.1 h
    have : digitWord a.toNat = some w := by
      unfold intKeyWord at hw
      split_ifs at hw
      exact hw
    obtain ⟨hwa, hwb⟩ := digitWord_wordOk this
    rw [← h']
    exact wordOk_append hwa hwb _
  · obtain ⟨w, hw, h'⟩ := Option.map_eq_some'.1 h
    obtain ⟨hwa, hwb⟩ := spellNat_wordOk hw
    rw [← h']
    exact wordOk_append hwa hwb _

/-- CLAIM C8 (amended): `pronounce_heading` is total on every integer, and
`pronounce_altitude` never raises exactly when the altitude is non-negative
(it raises `KeyError` on every negative altitude instead of degrading). -/
theorem c8_theorem :
    (∀ h : ℤ, (pronounceHeading h).isSome = true) ∧
    (∀ a : ℤ, (pronounceAltitude a).isSome = true ↔ 0 ≤ a) := by
  constructor
  · intro h
    have hnn : (0 : ℤ) ≤ h % 360 := Int.emod_nonneg h (by norm_num)
    have hlt : h % 360 < 360 := Int.emod_lt_of_pos h (by norm_num)
    have hb : (h % 360).toNat < 360 := by omega
    obtain ⟨ws, hws⟩ := Option.isSome_iff_exists.1
      (spellDigits_isSome
        (l := [(h % 360).toNat / 100, (h % 360).toNat / 10 % 10, (h % 360).toNat % 10])
        (by
          intro d hd
          simp at hd
          rcases hd with h1 | h1 | h1 <;> omega))
    simp [pronounceHeading, hws]
  · intro a
    constructor
    · intro hs
      by_contra hneg
      push_neg at hneg
      unfold pronounceAltitude at hs
      rw [if_neg (by omega)] at hs
      unfold pronounceAltitudeFeet at hs
      rw [if_neg (by omega), if_neg (by omega), if_neg (by omega), if_pos (by omega)] at hs
      have : intKeyWord a = none := by
        unfold intKeyWord
        rw [if_neg (by omega)]
      simp [this] at hs
    · intro ha
      unfold pronounceAltitude
      split_ifs with hfl
      · dsimp only
        split_ifs with h100
        · obtain ⟨w, hw⟩ :=
            Option.isSome_iff_exists.1 (pronounceFlightLevelNumber_isSome (a.toNat / 100))
          simp [hw]
        · obtain ⟨w, hw⟩ := Option.isSome_iff_exists.1 (spellNat_isSome (a.toNat / 100))
          simp [hw]
      · exact pronounceAltitudeFeet_isSome ha

theorem strAppend_assoc (a b c : String) : a ++ b ++ c = a ++ (b ++ c) := by
  apply String.ext
  simp [String.data_append]

/-- CLAIM C9: `pronounce_altitude(a)` begins with "Flight Level" exactly when
`a ≥ 18000` and `a % 100 = 0`; every other altitude takes the grouped-feet
rendering, e.g. `pronounce_altitude(3500) = "Three Thousand Five Hundred
feet"`. -/
theorem c9_theorem :
    pronounceAltitude 3500 = some "Three Thousand Five Hundred feet" ∧
    ∀ a : ℤ,
      ((∃ s r, pronounceAltitude a = some s ∧ s = "Flight Level" ++ r) ↔
        (18000 ≤ a ∧ a % 100 = 0)) ∧
      (¬(18000 ≤ a ∧ a % 100 = 0) → pronounceAltitude a = pronounceAltitudeFeet a) := by
  refine ⟨by decide, fun a => ⟨⟨?_, ?_⟩, ?_⟩⟩
  · rintro ⟨s, r, hps, rfl⟩
    by_contra hcond
    have hfeet : pronounceAltitude a = pronounceAltitudeFeet a := by
      unfold pronounceAltitude
      rw [if_neg hcond]
    rw [hfeet] at hps
    have hw := (pronounceAltitudeFeet_wordOk hps).2
    apply hw
    rw [String.data_append, List.get?_append (by decide)]
    decide
  · intro hcond
    unfold pronounceAltitude
    rw [if_pos hcond]
    dsimp only
    have hsplit : ∀ w : String, "Flight Level " ++ w = "Flight Level" ++ (" " ++ w) := by
      intro w
      rw [← strAppend_assoc]
      rfl
    split_ifs with h100
    · obtain ⟨w, hw⟩ :=
        Option.isSome_iff_exists.1 (pronounceFlightLevelNumber_isSome (a.toNat / 100))
      exact ⟨"Flight Level " ++ w, " " ++ w, by simp [hw], hsplit w⟩
    · obtain ⟨w, hw⟩ := Option.isSome_iff_exists.1 (spellNat_isSome (a.toNat / 100))
      exact ⟨"Flight Level " ++ w, " " ++ w, by simp [hw], hsplit w⟩
  · intro hcond
    unfold pronounceAltitude
    rw [if_neg hcond]

/-- CLAIM C3: the context update computes complexity
`min(10, 1 + min(traffic_count // 2, 3) + (4 if emergency) + (2 if
weather_severity > 5))`. -/
theorem c3_theorem :
    ∀ (ctx : GuidanceContext) (fd : FlightData),
      (updateGuidanceContext ctx fd).complexityLevel =
        min 10 (1 + min (Int.fdiv fd.trafficCount 2) 3 + (if fd.emergency then 4 else 0)
          + (if 5 < fd.weatherSeverity then 2 else 0)) := by
  intro ctx fd
  unfold updateGuidanceContext
  dsimp only
  generalize min (Int.fdiv fd.trafficCount 2) 3 = m
  split_ifs <;> omega

/-- CLAIM C2 counterexample: with the emergency flag set, complexity 10 and an
elapsed time of 0 since the last guidance, the gate still suppresses
processing — the cooldown checks run before the emergency check, so an
emergency does not bypass the gate. -/
theorem c2_counterexample :
    ({ emergencySituation := true, complexityLevel := 10 } : GuidanceContext).emergencySituation
        = true ∧
    shouldProvideGuidance 0 0 { emergencySituation := true, complexityLevel := 10 } (1/2)
        = false := by
  constructor
  · rfl
  · simp [shouldProvideGuidance, guidanceCooldownSeconds]

/-- CLAIM C2 (amended): the gate allows processing exactly when the elapsed
time reaches `effective_cooldown = base_cooldown * max(1, 11 - complexity)`
and, in addition, either the emergency flag is set or the
`min(0.3 + 0.05 * complexity, 0.8)` probability draw succeeds.  In
particular the cooldown suppresses processing even in an emergency. -/
theorem c2_theorem :
    ∀ (now lastGuidance : ℚ) (ctx : GuidanceContext) (r : ℚ),
      shouldProvideGuidance now lastGuidance ctx r = true ↔
        (guidanceCooldownSeconds * ((max 1 (11 - ctx.complexityLevel) : ℤ) : ℚ)
            ≤ now - lastGuidance ∧
          (ctx.emergencySituation = true ∨
            r < min (3/10 + (ctx.complexityLevel : ℚ) * (5/100)) (8/10))) := by
  intro now lastGuidance ctx r
  unfold shouldProvideGuidance guidanceCooldownSeconds
  dsimp only
  have hfac : (1 : ℤ) ≤ max 1 (11 - ctx.complexityLevel) := le_max_left _ _
  have hfacQ : (3 : ℚ) ≤ 3 * ((max 1 (11 - ctx.complexityLevel) : ℤ) : ℚ) := by
    have hq : (1 : ℚ) ≤ ((max 1 (11 - ctx.complexityLevel) : ℤ) : ℚ) := by
      exact_mod_cast hfac
    nlinarith
  by_cases h1 : now - lastGuidance < 3
  · rw [if_pos h1]
    simp only [Bool.false_eq_true, false_iff]
    intro hc
    exact not_le.2 (lt_of_lt_of_le h1 hfacQ) hc.1
  · rw [if_neg h1]
    by_cases h2 : now - lastGuidance < 3 * ((max 1 (11 - ctx.complexityLevel) : ℤ) : ℚ)
    · rw [if_pos h2]
      simp only [Bool.false_eq_true, false_iff]
      intro hc
      exact absurd hc.1 (not_le.2 h2)
    · rw [if_neg h2]
      by_cases h3 : ctx.emergencySituation = true
      · rw [if_pos h3]
        simp only [true_iff]
        exact ⟨le_of_not_lt h2, Or.inl h3⟩
      · rw [if_neg h3]
        rw [decide_eq_true_eq]
        constructor
        · intro hr
          exact ⟨le_of_not_lt h2, Or.inr hr⟩
        · rintro ⟨-, he | hr⟩
          · exact absurd he h3
          · exact hr

/-- CLAIM C5: evaluating the selector on the analysis of a routine cruise
snapshot with a rare aircraft type (preference list
`["captain_murphy", "sarah_spotter", "sarah_spotter"]`), with
`captain_murphy` failing its likelihood draw and the 20% second-speaker draw
succeeding: the primary is `sarah_spotter`, every remaining preferred entry
equals the primary, and `random.choice([])` raises `IndexError` (`none`) —
the selector does not return a list at all. -/
theorem c5_theorem :
    selectRespondingCharacters initialCharacters 1000 roC5
      (analyzeSituation (updateGuidanceContext initialState.context fdC5) fdC5) = none := by
  have hsa : analyzeSituation (updateGuidanceContext initialState.context fdC5) fdC5 =
      { situationType := "routine", urgencyLevel := 1, requiresTechnicalGuidance := false,
        trafficConcerns := [], weatherConcerns := [],
        educationalOpportunities := ["navigation_efficiency", "aircraft_recognition"],
        characterPreferences := ["captain_murphy", "sarah_spotter", "sarah_spotter"] } := by
    simp [analyzeSituation, updateGuidanceContext, fdC5, initialState]
  have h1 : decide ((4:ℚ)/5 < (0:ℚ)) = false := decide_eq_false (by norm_num)
  have h2 : decide ((3:ℚ)/5 < (0:ℚ)) = false := decide_eq_false (by norm_num)
  have h3 : decide ((2:ℚ)/5 < (2:ℚ)⁻¹) = true := decide_eq_true (by norm_num)
  have h4 : decide ((3:ℚ)/10 < (0:ℚ)) = false := decide_eq_false (by norm_num)
  have havail : availableCharacters initialCharacters 1000 roC5 =
      ["dublin_control", "approach_control", "sarah_spotter"] := by
    simp [availableCharacters, initialCharacters, restedAt, roC5, roDemo, h1, h2, h3, h4]
  have hpref : preferredCharacters initialCharacters 1000 roC5
      (analyzeSituation (updateGuidanceContext initialState.context fdC5) fdC5) =
      ["sarah_spotter", "sarah_spotter"] := by
    simp [preferredCharacters, havail, hsa]
  have h5 : (0:ℚ) < (5:ℚ)⁻¹ := by norm_num
  rw [selectRespondingCharacters, havail, hpref, hsa]
  simp [h5, roC5, roDemo]

theorem getD_mod_mem {α : Type} (l : List α) (i : ℕ) (d : α) (h : l ≠ []) :
    l.getD (i % l.length) d ∈ l := by
  have hlen : 0 < l.length := List.length_pos.2 h
  have hi : i % l.length < l.length := Nat.mod_lt _ hlen
  rw [List.getD_eq_get? , List.get?_eq_get hi]
  exact List.get_mem _ _ _

theorem mem_availableCharacters {chars : List (String × GuidanceCharacter)} {now : ℚ}
    {ro : RandomOutcome} {n : String}
    (h : n ∈ availableCharacters chars now ro) :
    ∃ c, (n, c) ∈ chars ∧ restedAt now c = true := by
  unfold availableCharacters at h
  obtain ⟨p, hp, hpn⟩ := List.mem_map.1 h
  obtain ⟨hmem, hcond⟩ := List.mem_filter.1 hp
  rw [Bool.and_eq_true] at hcond
  refine ⟨p.2, ?_, hcond.1⟩
  rw [← hpn]
  simpa using hmem

theorem mem_preferredCharacters {chars : List (String × GuidanceCharacter)} {now : ℚ}
    {ro : RandomOutcome} {sa : SituationAnalysis} {n : String}
    (h : n ∈ preferredCharacters chars now ro sa) :
    n ∈ availableCharacters chars now ro := by
  unfold preferredCharacters at h
  dsimp only at h
  split at h
  · exact h
  · exact of_decide_eq_true (List.mem_filter.1 h).2

theorem preferredCharacters_ne_nil {chars : List (String × GuidanceCharacter)} {now : ℚ}
    {ro : RandomOutcome} {sa : SituationAnalysis}
    (h : availableCharacters chars now ro ≠ []) :
    preferredCharacters chars now ro sa ≠ [] := by
  unfold preferredCharacters
  dsimp only
  split
  · exact h
  · assumption

theorem availableCharacters_ne_nil_of_mem_preferred {chars : List (String × GuidanceCharacter)}
    {now : ℚ} {ro : RandomOutcome} {sa : SituationAnalysis} {n : String}
    (h : n ∈ preferredCharacters chars now ro sa) :
    availableCharacters chars now ro ≠ [] := by
  intro hnil
  have := mem_preferredCharacters h
  rw [hnil] at this
  simp at this

/-- CLAIM C6: when urgency is at least 7 and some preference-filtered eligible
candidate has professional level at least 8, the selector returns exactly one
character, of professional level at least 8, for every outcome of the random
draws. -/
theorem c6_theorem :
    ∀ (chars : List (String × GuidanceCharacter)) (now : ℚ) (ro : RandomOutcome)
      (sa : SituationAnalysis),
      7 ≤ sa.urgencyLevel →
      (∃ n ∈ preferredCharacters chars now ro sa, 8 ≤ profLevelOf chars n) →
      ∃ n, selectRespondingCharacters chars now ro sa = some [n] ∧
        8 ≤ profLevelOf chars n := by
  intro chars now ro sa hu ⟨m, hm, hlev⟩
  have havail : availableCharacters chars now ro ≠ [] :=
    availableCharacters_ne_nil_of_mem_preferred hm
  have hpro : m ∈ (preferredCharacters chars now ro sa).filter
      (fun c => decide (8 ≤ profLevelOf chars c)) :=
    List.mem_filter.2 ⟨hm, decide_eq_true hlev⟩
  have hpro_ne : (preferredCharacters chars now ro sa).filter
      (fun c => decide (8 ≤ profLevelOf chars c)) ≠ [] := by
    intro hnil
    rw [hnil] at hpro
    simp at hpro
  unfold selectRespondingCharacters
  rw [if_neg havail, if_pos hu, if_neg hpro_ne]
  set pro := (preferredCharacters chars now ro sa).filter
      (fun c => decide (8 ≤ profLevelOf chars c)) with hpro_def
  refine ⟨pro.getD (ro.proChoice % pro.length) "", rfl, ?_⟩
  have hmem := getD_mod_mem pro (ro.proChoice) "" hpro_ne
  exact of_decide_eq_true (List.mem_filter.1 hmem).2

/-- A closed instance of C6: one concrete urgency-7 analysis under one
concrete draw outcome. -/
theorem c6_witness :
    ∃ n, selectRespondingCharacters initialCharacters 1000 roDemo
        { urgencyLevel := 7 } = some [n] ∧
      8 ≤ profLevelOf initialCharacters n := by
  apply c6_theorem initialCharacters 1000 roDemo { urgencyLevel := 7 } (by norm_num)
  refine ⟨"dublin_control", ?_, ?_⟩
  · have h1 : decide ((4:ℚ)/5 < (0:ℚ)) = false := decide_eq_false (by norm_num)
    have h2 : decide ((3:ℚ)/5 < (0:ℚ)) = false := decide_eq_false (by norm_num)
    have h3 : decide ((2:ℚ)/5 < (0:ℚ)) = false := decide_eq_false (by norm_num)
    have h4 : decide ((3:ℚ)/10 < (0:ℚ)) = false := decide_eq_false (by norm_num)
    have havail : availableCharacters initialCharacters 1000 roDemo =
        ["dublin_control", "approach_control", "captain_murphy", "sarah_spotter"] := by
      simp [availableCharacters, initialCharacters, restedAt, roDemo, h1, h2, h3, h4]
    simp [preferredCharacters, havail]
  · simp [profLevelOf, findChar, initialCharacters]

/-- CLAIM C1 counterexample: an emergency-flagged snapshot processed by
`process_flight_situation` at the instant the system was constructed
(elapsed time 0 since `last_guidance_time`) produces no emission at all —
the gate's cooldown check runs before its emergency check. -/
theorem c1_counterexample :
    fdEmergency.emergency = true ∧
    (processFlightSituation initialState fdEmergency 0 roDemo).2 = [] := by
  refine ⟨rfl, ?_⟩
  have hgate : shouldProvideGuidance 0 initialState.lastGuidanceTime
      (updateGuidanceContext initialState.context fdEmergency) roDemo.gateDraw = false := by
    norm_num [shouldProvideGuidance, guidanceCooldownSeconds, initialState]
  simp [processFlightSituation, hgate]

theorem strAppend_ne_empty (a b : String) (hb : b ≠ "") : a ++ b ≠ "" := by
  intro h
  apply hb
  have hd := congrArg String.data h
  rw [String.data_append] at hd
  exact String.ext (List.append_eq_nil.1 hd).2

theorem generateEmergencyGuidance_ne_empty (n cs : String) (i : ℕ) :
    generateEmergencyGuidance n cs i ≠ "" := by
  unfold generateEmergencyGuidance emergencyTemplates
  have hmod : i % 3 = 0 ∨ i % 3 = 1 ∨ i % 3 = 2 := by omega
  split_ifs <;> dsimp only <;>
    rcases hmod with h | h | h <;> rw [List.length_cons, List.length_cons,
      List.length_cons, List.length_nil, h] <;>
    exact strAppend_ne_empty _ _ (by decide)

/-- CLAIM C1 (amended): an emergency-flagged snapshot through
`process_flight_situation` can be suppressed by the cooldown (see the
counterexample); the guaranteed behaviour belongs to the dedicated emergency
entry point: whenever some registered character has professional level at
least 8, one call to `handle_emergency_situation` produces exactly one
emission, attributed to a character of professional level at least 8, for
every state (in particular for every `last_guidance_time`) and every draw
outcome. -/
theorem c1_theorem :
    ∀ (s : SysState) (ed : List (String × String)) (t : ℚ) (ro : RandomOutcome),
      (∃ p ∈ s.characters, 8 ≤ p.2.professionalLevel) →
      ∃ n g, (handleEmergencySituation s ed t ro).2 = [(n, g)] ∧
        ∃ c, (n, c) ∈ s.characters ∧ 8 ≤ c.professionalLevel := by
  intro s ed t ro ⟨p, hp, hlev⟩
  have hmem : p ∈ s.characters.filter (fun q => decide (8 ≤ q.2.professionalLevel)) :=
    List.mem_filter.2 ⟨hp, decide_eq_true hlev⟩
  unfold handleEmergencySituation
  dsimp only
  cases hpro : s.characters.filter (fun q => decide (8 ≤ q.2.professionalLevel)) with
  | nil => rw [hpro] at hmem; simp at hmem
  | cons q rest =>
    have hq : q ∈ s.characters.filter (fun q => decide (8 ≤ q.2.professionalLevel)) := by
      rw [hpro]; exact List.mem_cons_self _ _
    obtain ⟨hqmem, hqlev⟩ := List.mem_filter.1 hq
    dsimp only
    rw [if_neg (generateEmergencyGuidance_ne_empty _ _ _)]
    refine ⟨q.1, _, rfl, ?_⟩
    exact ⟨q.2, by simpa using hqmem, of_decide_eq_true hqlev⟩

/-- A closed instance of the amended C1: the fresh system handles an emergency
with exactly one professional emission. -/
theorem c1_witness :
    ∃ n g, (handleEmergencySituation initialState [] 0 roDemo).2 = [(n, g)] ∧
      ∃ c, (n, c) ∈ initialState.characters ∧ 8 ≤ c.professionalLevel :=
  c1_theorem initialState [] 0 roDemo
    ⟨initialCharacters.get ⟨0, by decide⟩, List.get_mem _ _ _, by decide⟩

/-- CLAIM C10: neither the emergency entry point nor the force-speak entry
point touches any character's state — the whole character table (hence every
`last_spoke` and `spoke_count_session`) is unchanged; dispatch only updates
`last_guidance_time`.  Such emissions are therefore invisible to the
selector's per-character 5-minute cooldown. -/
theorem c10_theorem :
    ∀ (s : SysState) (ed : List (String × String)) (n : String)
      (so : Option String) (t : ℚ) (ro : RandomOutcome),
      (handleEmergencySituation s ed t ro).1.characters = s.characters ∧
      (forceCharacterGuidance s n so t ro).1.characters = s.characters := by
  intro s ed n so t ro
  constructor
  · unfold handleEmergencySituation
    dsimp only
    split
    · rfl
    · split <;> rfl
  · unfold forceCharacterGuidance
    split
    · rfl
    · dsimp only
      split <;> rfl

theorem demo_avail (u t : ℚ) (cnt : ℕ) (flow : List FlowEntry) (ht : t - u = 300) :
    availableCharacters (demoStateAux u cnt flow).characters t roDemo =
      ["dublin_control", "approach_control", "captain_murphy", "sarah_spotter"] := by
  have h1 : decide ((4:ℚ)/5 < (0:ℚ)) = false := decide_eq_false (by norm_num)
  have h2 : decide ((3:ℚ)/5 < (0:ℚ)) = false := decide_eq_false (by norm_num)
  have h3 : decide ((2:ℚ)/5 < (0:ℚ)) = false := decide_eq_false (by norm_num)
  have h4 : decide ((3:ℚ)/10 < (0:ℚ)) = false := decide_eq_false (by norm_num)
  have h5 : decide ((t - u)/60 < 5) = false := decide_eq_false (by rw [ht]; norm_num)
  simp [availableCharacters, demoStateAux, initialCharacters, restedAt, roDemo,
    h1, h2, h3, h4, h5]

theorem demo_select (u t : ℚ) (cnt : ℕ) (flow : List FlowEntry) (ht : t - u = 300) :
    selectRespondingCharacters (demoStateAux u cnt flow).characters t roDemo
      { situationType := "routine", urgencyLevel := 1, requiresTechnicalGuidance := false,
        trafficConcerns := [], weatherConcerns := [],
        educationalOpportunities := ["navigation_efficiency"],
        characterPreferences := ["captain_murphy", "sarah_spotter"] } =
      some ["captain_murphy"] := by
  have havail := demo_avail u t cnt flow ht
  have hpref : preferredCharacters (demoStateAux u cnt flow).characters t roDemo
      { situationType := "routine", urgencyLevel := 1, requiresTechnicalGuidance := false,
        trafficConcerns := [], weatherConcerns := [],
        educationalOpportunities := ["navigation_efficiency"],
        characterPreferences := ["captain_murphy", "sarah_spotter"] } =
      ["captain_murphy", "sarah_spotter"] := by
    simp [preferredCharacters, havail]
  have h6 : ¬((1:ℚ) < (5:ℚ)⁻¹) := by norm_num
  rw [selectRespondingCharacters, havail, hpref]
  simp [roDemo, h6]

theorem demo_cycle (u t : ℚ) (cnt : ℕ) (flow : List FlowEntry) (ht : t - u = 300) :
    processFlightSituation (demoStateAux u cnt flow) fdDemo t roDemo =
      ((demoStateAux t (cnt + 1)
        (flow ++ [{ timestamp := t, character := "captain_murphy",
                    message := demoMessage, situation := "routine" }])),
       [("captain_murphy", demoMessage)]) := by
  have hctx : updateGuidanceContext (demoStateAux u cnt flow).context fdDemo =
      (demoStateAux u cnt flow).context := by
    simp [updateGuidanceContext, fdDemo, demoStateAux]
  have hgate : shouldProvideGuidance t u (demoStateAux u cnt flow).context roDemo.gateDraw
      = true := by
    norm_num [shouldProvideGuidance, guidanceCooldownSeconds, ht, demoStateAux, roDemo, min_def]
  have hsa : analyzeSituation (demoStateAux u cnt flow).context fdDemo =
      { situationType := "routine", urgencyLevel := 1, requiresTechnicalGuidance := false,
        trafficConcerns := [], weatherConcerns := [],
        educationalOpportunities := ["navigation_efficiency"],
        characterPreferences := ["captain_murphy", "sarah_spotter"] } := by
    simp [analyzeSituation, demoStateAux, fdDemo]
  have hsel := demo_select u t cnt flow ht
  rw [processFlightSituation]
  rw [hctx]
  have hs1 : { demoStateAux u cnt flow with context := (demoStateAux u cnt flow).context }
      = demoStateAux u cnt flow := rfl
  rw [hs1, show (demoStateAux u cnt flow).lastGuidanceTime = u from rfl, hgate]
  simp only [if_true]
  rw [hsa, hsel]
  simp [emitLoop, emitOne, findChar, demoStateAux, initialCharacters,
    generateTemplateGuidance, personalityTemplates, roDemo, demoMessage]

theorem demo_cycle0 :
    processFlightSituation initialState fdDemo 300 roDemo =
      ((demoStateAux 300 1
        [{ timestamp := 300, character := "captain_murphy",
           message := demoMessage, situation := "routine" }]),
       [("captain_murphy", demoMessage)]) := by
  have hctx : updateGuidanceContext initialState.context fdDemo =
      (demoStateAux 0 0 []).context := by
    simp [updateGuidanceContext, fdDemo, demoStateAux, initialState]
  have hgate : shouldProvideGuidance 300 0
      (demoStateAux 0 0 []).context roDemo.gateDraw = true := by
    norm_num [shouldProvideGuidance, guidanceCooldownSeconds, demoStateAux, roDemo, min_def]
  have hsa : analyzeSituation (demoStateAux 0 0 []).context fdDemo =
      { situationType := "routine", urgencyLevel := 1, requiresTechnicalGuidance := false,
        trafficConcerns := [], weatherConcerns := [],
        educationalOpportunities := ["navigation_efficiency"],
        characterPreferences := ["captain_murphy", "sarah_spotter"] } := by
    simp [analyzeSituation, demoStateAux, fdDemo]
  have h1 : decide ((4:ℚ)/5 < (0:ℚ)) = false := decide_eq_false (by norm_num)
  have h2 : decide ((3:ℚ)/5 < (0:ℚ)) = false := decide_eq_false (by norm_num)
  have h3 : decide ((2:ℚ)/5 < (0:ℚ)) = false := decide_eq_false (by norm_num)
  have h4 : decide ((3:ℚ)/10 < (0:ℚ)) = false := decide_eq_false (by norm_num)
  have havail : availableCharacters initialState.characters (300 : ℚ) roDemo =
      ["dublin_control", "approach_control", "captain_murphy", "sarah_spotter"] := by
    simp [availableCharacters, initialState, initialCharacters, restedAt, roDemo,
      h1, h2, h3, h4]
  have hpref : preferredCharacters initialState.characters (300 : ℚ) roDemo
      { situationType := "routine", urgencyLevel := 1, requiresTechnicalGuidance := false,
        trafficConcerns := [], weatherConcerns := [],
        educationalOpportunities := ["navigation_efficiency"],
        characterPreferences := ["captain_murphy", "sarah_spotter"] } =
      ["captain_murphy", "sarah_spotter"] := by
    simp [preferredCharacters, havail]
  have h6 : ¬((1:ℚ) < (5:ℚ)⁻¹) := by norm_num
  have hsel : selectRespondingCharacters initialState.characters (300 : ℚ) roDemo
      { situationType := "routine", urgencyLevel := 1, requiresTechnicalGuidance := false,
        trafficConcerns := [], weatherConcerns := [],
        educationalOpportunities := ["navigation_efficiency"],
        characterPreferences := ["captain_murphy", "sarah_spotter"] } =
      some ["captain_murphy"] := by
    rw [selectRespondingCharacters, havail, hpref]
    simp [roDemo, h6]
  rw [processFlightSituation, hctx,
    show ({ initialState with
      context := (demoStateAux 0 0 []).context } : SysState).lastGuidanceTime = 0 from rfl,
    hgate]
  simp only [if_true]
  rw [show ({ initialState with
    context := (demoStateAux 0 0 []).context } : SysState).context
      = (demoStateAux 0 0 []).context from rfl]
  rw [hsa]
  rw [show ({ initialState with
    context := (demoStateAux 0 0 []).context } : SysState).characters
      = initialState.characters from rfl]
  rw [hsel]
  simp [emitLoop, emitOne, findChar, demoStateAux, initialState, initialCharacters,
    generateTemplateGuidance, personalityTemplates, roDemo, demoMessage]

theorem demoFlow_append (m : ℕ) :
    demoFlow m ++ [{ timestamp := 300 * ((m : ℚ) + 1), character := "captain_murphy",
                     message := demoMessage, situation := "routine" }] = demoFlow (m + 1) := by
  unfold demoFlow
  rw [List.range_succ, List.map_append]
  simp only [List.map_cons, List.map_nil, demoEntry]
  congr 2
  push_cast
  ring

theorem demoRun_eq : ∀ k : ℕ, demoRun (k + 1) =
    demoStateAux (300 * ((k : ℚ) + 1)) (k + 1) (demoFlow (k + 1)) := by
  intro k
  induction k with
  | zero =>
    show (processFlightSituation initialState fdDemo (300 * (((0:ℕ) : ℚ) + 1)) roDemo).1 = _
    have hnum : (300 : ℚ) * (((0:ℕ) : ℚ) + 1) = 300 := by norm_num
    rw [hnum, demo_cycle0]
    norm_num [demoFlow, demoEntry, List.range_succ]
  | succ k ih =>
    show (processFlightSituation (demoRun (k+1)) fdDemo
      (300 * ((((k+1):ℕ) : ℚ) + 1)) roDemo).1 = _
    rw [ih]
    have ht : (300 : ℚ) * ((((k+1):ℕ) : ℚ) + 1) - 300 * (((k:ℕ) : ℚ) + 1) = 300 := by
      push_cast
      ring
    rw [demo_cycle _ _ _ _ ht]
    show demoStateAux _ _ _ = _
    rw [demoFlow_append (k+1)]

theorem demoRun_reachable : ∀ k, ReachableFrom initialState (demoRun k)
  | 0 => Relation.ReflTransGen.refl
  | k+1 => Relation.ReflTransGen.tail (demoRun_reachable k) (Step.cycle _ _ _ _)

/-- CLAIM C7 counterexample: a run of 101 situation-processing cycles, 300
seconds apart, is reachable from the fresh system and leaves 101 entries in
the conversation history — nothing in the code bounds the history at 100
(or at any size). -/
theorem c7_counterexample :
    ReachableFrom initialState (demoRun 101) ∧
    100 < (demoRun 101).context.conversationFlow.length := by
  refine ⟨demoRun_reachable 101, ?_⟩
  rw [show (101 : ℕ) = 100 + 1 from rfl, demoRun_eq 100]
  simp [demoStateAux, demoFlow]

theorem emitOne_flow (s : SysState) (sa : SituationAnalysis) (t : ℚ) (ro : RandomOutcome)
    (n : String) :
    ∃ l, ((emitOne s sa t ro n).1).context.conversationFlow
      = s.context.conversationFlow ++ l := by
  unfold emitOne
  cases findChar s.characters n with
  | none => exact ⟨[], (List.append_nil _).symm⟩
  | some ch =>
    dsimp only
    split_ifs with hg
    · exact ⟨[], (List.append_nil _).symm⟩
    · exact ⟨[_], rfl⟩

theorem emitLoop_flow (sa : SituationAnalysis) (t : ℚ) (ro : RandomOutcome) :
    ∀ (sel : List String) (s : SysState),
      ∃ l, ((emitLoop sa t ro s sel).1).context.conversationFlow
        = s.context.conversationFlow ++ l := by
  intro sel
  induction sel with
  | nil => intro s; exact ⟨[], (List.append_nil _).symm⟩
  | cons n rest ih =>
    intro s
    obtain ⟨l1, h1⟩ := emitOne_flow s sa t ro n
    obtain ⟨l2, h2⟩ := ih (emitOne s sa t ro n).1
    refine ⟨l1 ++ l2, ?_⟩
    show ((emitLoop sa t ro (emitOne s sa t ro n).1 rest).1).context.conversationFlow = _
    rw [h2, h1, List.append_assoc]

theorem processFlightSituation_flow (s : SysState) (fd : FlightData) (t : ℚ)
    (ro : RandomOutcome) :
    ∃ l, ((processFlightSituation s fd t ro).1).context.conversationFlow
      = s.context.conversationFlow ++ l := by
  unfold processFlightSituation
  dsimp only
  split_ifs
  · cases selectRespondingCharacters s.characters t ro
      (analyzeSituation (updateGuidanceContext s.context fd) fd) with
    | none => exact ⟨[], (List.append_nil _).symm⟩
    | some sel =>
      dsimp only
      exact emitLoop_flow _ t ro sel _
  · exact ⟨[], (List.append_nil _).symm⟩

/-- CLAIM C7 (amended): the conversation history is append-only but unbounded:
across any sequence of situation-processing cycles the earlier history is
preserved verbatim as a prefix and entries are only ever appended — nothing
is evicted, and (see the counterexample) the length is not capped at 100. -/
theorem c7_theorem :
    ∀ s s' : SysState, ReachableFrom s s' →
      ∃ l, s'.context.conversationFlow = s.context.conversationFlow ++ l := by
  intro s s' h
  induction h with
  | refl => exact ⟨[], (List.append_nil _).symm⟩
  | tail hr hstep ih =>
    obtain ⟨l1, h1⟩ := ih
    cases hstep with
    | cycle fd t ro =>
      obtain ⟨l2, h2⟩ := processFlightSituation_flow _ fd t ro
      refine ⟨l1 ++ l2, ?_⟩
      rw [h2, h1, List.append_assoc]

/-- A closed instance of the amended C7 at the empty run. -/
theorem c7_witness :
    ∃ l, initialState.context.conversationFlow
      = initialState.context.conversationFlow ++ l :=
  c7_theorem initialState initialState Relation.ReflTransGen.refl

theorem findChar_eq_of_mem :
    ∀ {chars : List (String × GuidanceCharacter)} {n : String} {c : GuidanceCharacter},
      (chars.map Prod.fst).Nodup → (n, c) ∈ chars → findChar chars n = some c := by
  intro chars
  induction chars with
  | nil => intro n c _ h; simp at h
  | cons p rest ih =>
    intro n c hnd hmem
    rw [List.map_cons, List.nodup_cons] at hnd
    rcases List.mem_cons.1 hmem with h | h
    · subst h
      simp [findChar, List.find?]
    · have hne : ¬(p.1 = n) := by
        intro he
        apply hnd.1
        rw [he]
        exact List.mem_map.2 ⟨(n, c), h, rfl⟩
      have hrec := ih hnd.2 h
      unfold findChar at hrec ⊢
      rw [List.find?_cons_of_neg _ (by simpa using hne)]
      exact hrec

theorem updateChars_keys (chars : List (String × GuidanceCharacter)) (n : String) (t : ℚ) :
    (chars.map (fun p =>
      if p.1 = n then
        (p.1, { p.2 with lastSpoke := some t, spokeCountSession := p.2.spokeCountSession + 1 })
      else p)).map Prod.fst = chars.map Prod.fst := by
  induction chars with
  | nil => rfl
  | cons p rest ih =>
    by_cases hpn : p.1 = n <;> simp [hpn, ih]

theorem restedAt_bound {t u : ℚ} {c : GuidanceCharacter} (hc : c.lastSpoke = some u)
    (hr : restedAt t c = true) : u + 300 ≤ t := by
  rw [restedAt, hc] at hr
  simp only [Bool.not_eq_eq_eq_not, Bool.not_true, decide_eq_false_iff_not, not_lt] at hr
  rw [le_div_iff (by norm_num : (0:ℚ) < 60)] at hr
  linarith

theorem emitOne_spec (s : SysState) (sa : SituationAnalysis) (t : ℚ) (ro : RandomOutcome)
    (n : String) (hI : Inv s)
    (helig : ∃ c, (n, c) ∈ s.characters ∧ restedAt t c = true) :
    Inv (emitOne s sa t ro n).1 ∧
    (∀ m c, m ≠ n → (m, c) ∈ s.characters → (m, c) ∈ (emitOne s sa t ro n).1.characters) := by
  obtain ⟨hSp, hLs, hNd⟩ := hI
  obtain ⟨c0, hc0, hrest0⟩ := helig
  unfold emitOne
  cases hf : findChar s.characters n with
  | none => exact ⟨⟨hSp, hLs, hNd⟩, fun m c _ hm => hm⟩
  | some ch =>
    have hch : ch = c0 := by
      have h := findChar_eq_of_mem hNd hc0
      rw [hf] at h
      exact Option.some.inj h
    subst hch
    dsimp only
    split_ifs with hg
    · exact ⟨⟨hSp, hLs, hNd⟩, fun m c _ hm => hm⟩
    · have hboundt : ∀ u, ch.lastSpoke = some u → u + 300 ≤ t := fun u hu =>
        restedAt_bound hu hrest0
      constructor
      · refine ⟨?_, ?_, ?_⟩
        · -- spacing of the extended flow
          show SpacedOk (s.context.conversationFlow ++ [_])
          rw [SpacedOk, List.pairwise_append]
          refine ⟨hSp, by simp, ?_⟩
          intro e he e' he'
          rw [List.mem_singleton] at he'
          subst he'
          intro hechar
          obtain ⟨u, hu, hts⟩ := hLs n ch hc0 e he hechar
          have := hboundt u hu
          show e.timestamp + 300 ≤ t
          linarith
        · -- last-spoke tracking in the updated character table
          intro m c hmc e he hechar
          obtain ⟨p, hp, hfp⟩ := List.mem_map.1 hmc
          by_cases hpn : p.1 = n
          · rw [if_pos hpn] at hfp
            cases hfp
            rcases List.mem_append.1 he with he | he
            · refine ⟨t, rfl, ?_⟩
              have hechar' : e.character = n := by rw [hechar, hpn]
              obtain ⟨u, hu, hts⟩ := hLs n ch hc0 e he hechar'
              have := hboundt u hu
              linarith
            · rw [List.mem_singleton] at he
              subst he
              exact ⟨t, rfl, le_refl t⟩
          · rw [if_neg hpn] at hfp
            cases hfp
            rcases List.mem_append.1 he with he | he
            · exact hLs m c (by simpa using hp) e he hechar
            · rw [List.mem_singleton] at he
              subst he
              exact absurd hechar.symm (by simpa using hpn)
        · -- the keys are unchanged, so still distinct
          show (List.map Prod.fst (List.map _ s.characters)).Nodup
          rw [updateChars_keys]
          exact hNd
      · intro m c hmn hm
        apply List.mem_map.2
        refine ⟨(m, c), hm, ?_⟩
        simp [hmn]

theorem emitLoop_inv (sa : SituationAnalysis) (t : ℚ) (ro : RandomOutcome) :
    ∀ (sel : List String) (s : SysState), Inv s →
      (∀ n ∈ sel, ∃ c, (n, c) ∈ s.characters ∧ restedAt t c = true) →
      sel.Nodup → Inv (emitLoop sa t ro s sel).1 := by
  intro sel
  induction sel with
  | nil => intro s hI _ _; exact hI
  | cons n rest ih =>
    intro s hI helig hnd
    rw [List.nodup_cons] at hnd
    have h1 := emitOne_spec s sa t ro n hI (helig n (by simp))
    show Inv (emitLoop sa t ro (emitOne s sa t ro n).1 rest).1
    apply ih _ h1.1 _ hnd.2
    intro m hm
    obtain ⟨c, hc, hr⟩ := helig m (by simp [hm])
    refine ⟨c, h1.2 m c ?_ hc, hr⟩
    rintro rfl
    exact hnd.1 hm

theorem selectRespondingCharacters_sound {chars : List (String × GuidanceCharacter)}
    {now : ℚ} {ro : RandomOutcome} {sa : SituationAnalysis} {sel : List String}
    (hs : selectRespondingCharacters chars now ro sa = some sel) :
    sel.Nodup ∧ ∀ n ∈ sel, n ∈ preferredCharacters chars now ro sa := by
  unfold selectRespondingCharacters at hs
  dsimp only at hs
  by_cases hav : availableCharacters chars now ro = []
  · rw [if_pos hav] at hs
    cases Option.some.inj hs
    exact ⟨List.nodup_nil, by simp⟩
  · rw [if_neg hav] at hs
    have hpne : preferredCharacters chars now ro sa ≠ [] :=
      preferredCharacters_ne_nil hav
    set pref := preferredCharacters chars now ro sa with hprefd
    set primary := pref.getD (ro.primChoice % pref.length) "" with hprimd
    set remaining := pref.filter (fun c => decide (c ≠ primary)) with hremd
    set pro := pref.filter (fun c => decide (8 ≤ profLevelOf chars c)) with hprod
    have hprim_mem : primary ∈ pref := getD_mod_mem pref ro.primChoice "" hpne
    have hnormal : ∀ sel',
        (if sa.situationType = "routine" ∧ 1 < pref.length ∧ ro.secondDraw < 1/5 then
          if remaining = [] then none
          else some [primary, remaining.getD (ro.secondChoice % remaining.length) ""]
        else some [primary]) = some sel' →
        sel'.Nodup ∧ ∀ n ∈ sel', n ∈ pref := by
      intro sel' hsel
      by_cases hcond : sa.situationType = "routine" ∧ 1 < pref.length ∧ ro.secondDraw < 1/5
      · rw [if_pos hcond] at hsel
        by_cases hremn : remaining = []
        · rw [if_pos hremn] at hsel
          exact absurd hsel (by simp)
        · rw [if_neg hremn] at hsel
          cases Option.some.inj hsel
          have hsecond := getD_mod_mem remaining ro.secondChoice "" hremn
          rw [hremd] at hsecond
          obtain ⟨hsmem, hsneq⟩ := List.mem_filter.1 hsecond
          have hne := of_decide_eq_true hsneq
          constructor
          · simp only [List.nodup_cons, List.mem_singleton, List.nodup_nil, and_true,
              List.not_mem_nil, not_false_iff]
            exact fun h => hne h.symm
          · intro n hn
            rcases List.mem_cons.1 hn with h | h
            · subst h
              exact hprim_mem
            · rw [List.mem_singleton] at h
              subst h
              exact hsmem
      · rw [if_neg hcond] at hsel
        cases Option.some.inj hsel
        refine ⟨by simp, ?_⟩
        intro n hn
        rw [List.mem_singleton] at hn
        subst hn
        exact hprim_mem
    by_cases hu : 7 ≤ sa.urgencyLevel
    · rw [if_pos hu] at hs
      by_cases hpron : pro = []
      · rw [if_pos hpron] at hs
        exact hnormal sel hs
      · rw [if_neg hpron] at hs
        cases Option.some.inj hs
        refine ⟨by simp, ?_⟩
        intro n hn
        rw [List.mem_singleton] at hn
        subst hn
        have := getD_mod_mem pro ro.proChoice "" hpron
        rw [hprod] at this
        exact (List.mem_filter.1 this).1
    · rw [if_neg hu] at hs
      exact hnormal sel hs

theorem inv_initialState : Inv initialState := by
  refine ⟨List.Pairwise.nil, ?_, ?_⟩
  · intro m c _ e he
    exact absurd he (by simp [initialState])
  · show (initialState.characters.map Prod.fst).Nodup
    decide

theorem processFlightSituation_inv {s : SysState} (fd : FlightData) (t : ℚ)
    (ro : RandomOutcome) (hI : Inv s) : Inv (processFlightSituation s fd t ro).1 := by
  obtain ⟨hSp, hLs, hNd⟩ := hI
  have hI1 : Inv { s with context := updateGuidanceContext s.context fd } := by
    refine ⟨hSp, ?_, hNd⟩
    intro m c hm e he hechar
    exact hLs m c hm e he hechar
  unfold processFlightSituation
  dsimp only
  split_ifs with hgate
  · cases hsel : selectRespondingCharacters s.characters t ro
      (analyzeSituation (updateGuidanceContext s.context fd) fd) with
    | none => exact hI1
    | some sel =>
      obtain ⟨hnd, hmem⟩ := selectRespondingCharacters_sound hsel
      dsimp only
      apply emitLoop_inv _ t ro sel _ hI1 _ hnd
      intro n hn
      exact mem_availableCharacters (mem_preferredCharacters (hmem n hn))
  · exact hI1

/-- CLAIM C4: in every state reachable by situation-processing cycles, any two
conversation-flow emissions attributed to the same character are at least 300
seconds (5 minutes) apart — the per-character rest filter guarantees the
spacing inductively. -/
theorem c4_theorem :
    ∀ s : SysState, ReachableFrom initialState s →
      List.Pairwise
        (fun e1 e2 : FlowEntry =>
          e1.character = e2.character → e1.timestamp + 300 ≤ e2.timestamp)
        s.context.conversationFlow := by
  intro s h
  have hI : Inv s := by
    induction h with
    | refl => exact inv_initialState
    | tail hr hstep ih =>
      cases hstep with
      | cycle fd t ro => exact processFlightSituation_inv fd t ro ih
  exact hI.1

/-- A closed instance of C4 at the empty run. -/
theorem c4_witness :
    List.Pairwise
      (fun e1 e2 : FlowEntry =>
        e1.character = e2.character → e1.timestamp + 300 ≤ e2.timestamp)
      initialState.context.conversationFlow :=
  c4_theorem initialState Relation.ReflTransGen.refl

end Simviator
